import Mathlib

/-!
Shallow embedding of the `sqlmodel-tutorial` repository.

The repository has two variants of the same Hero/Team domain:

* `src/app.py` : one-to-many variant. `Hero` carries a nullable foreign key
  `team_id` into `team`, plus bidirectional in-memory relationship
  attributes (`Hero.team` / `Team.heroes`, linked by `back_populates`).
* `src/main.py` : many-to-many variant. `Hero` has NO `team_id` column;
  associations go through the `HeroTeamLink` table. It also exposes a
  small HTTP API (`create_hero`, `read_heroes`).

Namespace `App` embeds the first file, namespace `Main` the second.
Rows are embedded as Lean structures, the SQLite database as lists of rows
in insertion (rowid) order plus autoincrement counters, and the in-memory
ORM object graph as finite maps from object identities to objects.
Fallible library calls (`results.one()`, `session.refresh`, `session.add`
of an unmapped instance, join-condition inference) return `Except`.
-/

namespace App

/-- A persisted row of the `team` table (src/app.py lines 6-9):
primary key `id`, indexed `name`, required `headquarters`. -/
structure TeamRow where
  id : Nat
  name : String
  headquarters : String
deriving Repr, DecidableEq

/-- A persisted row of the `hero` table (src/app.py lines 23-41):
primary key `id`, indexed `name`, required `secret_name`, nullable `age`,
nullable foreign key `team_id` referencing `team.id`. -/
structure HeroRow where
  id : Nat
  name : String
  secret_name : String
  age : Option Int
  team_id : Option Nat
deriving Repr, DecidableEq

/-- The SQLite database behind the engine (src/app.py line 51): which
tables have been materialized, the stored rows in insertion (rowid)
order, and the autoincrement counters for the two primary keys. -/
structure DB where
  tables : List String
  teams : List TeamRow
  heroes : List HeroRow
  nextTeamId : Nat
  nextHeroId : Nat
deriving Repr, DecidableEq

/-- The tables registered in `SQLModel.metadata` by the two model classes
of src/app.py. -/
def metadataTables : List String := ["team", "hero"]

/-- CREATE TABLE IF NOT EXISTS: `metadata.create_all` checks for each
registered table whether it already exists and only creates the missing
ones; creating a table never touches stored rows. -/
def createTable (db : DB) (t : String) : DB :=
  if t ∈ db.tables then db
  else { db with tables := db.tables ++ [t] }

/-- `create_db_and_tables` (src/app.py lines 56-59):
`SQLModel.metadata.create_all(engine)` over the registered tables. -/
def create_db_and_tables (db : DB) : DB :=
  metadataTables.foldl createTable db

/-- Errors surfaced by the ORM calls used in src/app.py. -/
inductive OrmError where
  /-- `sqlalchemy.exc.NoResultFound`: `results.one()` on zero rows. -/
  | noResultFound : OrmError
  /-- `sqlalchemy.exc.MultipleResultsFound`: `results.one()` on two or
  more rows. -/
  | multipleResultsFound : OrmError
  /-- `sqlalchemy.exc.InvalidRequestError`: `session.refresh` on an
  instance whose row is gone from the database. -/
  | invalidRequest : OrmError
deriving Repr, DecidableEq

/-- `results.one()`: succeeds exactly when the result sequence holds one
row, and raises a distinct error for zero rows versus several rows. -/
def one {α : Type} (xs : List α) : Except OrmError α :=
  match xs with
  | [] => .error .noResultFound
  | [x] => .ok x
  | _ :: _ :: _ => .error .multipleResultsFound

/-- `session.exec(select(Hero).where(pred))`: the rows of the `hero`
table satisfying the predicate, in stored order. -/
def selectWhere (pred : HeroRow → Bool) (db : DB) : List HeroRow :=
  db.heroes.filter pred

/-- The filter used by `update_heroes` and `delete_heroes`
(src/app.py lines 172 and 187): `Hero.name == "Spider-Boy"`. -/
def nameIs (n : String) (h : HeroRow) : Bool :=
  h.name = n

/-- The predicate `col(Hero.age) < 35` of the select statement on
src/app.py line 153: SQL comparison with NULL is not true, so a hero with
`age` NULL is filtered out. -/
def ageLt (t : Int) (h : HeroRow) : Bool :=
  match h.age with
  | some a => decide (a < t)
  | none => false

/-- The statement on src/app.py line 153:
`select(Hero).where(col(Hero.age) < t).offset(off).limit(lim)`.
WHERE filters the stored rows, OFFSET skips the first `off` of the
matches, LIMIT keeps at most `lim` of the rest, all in stored
(insertion / primary-key) order. -/
def selectAgeOffsetLimit (t : Int) (off lim : Nat) (db : DB) : List HeroRow :=
  ((db.heroes.filter (ageLt t)).drop off).take lim

/-- `update_heroes` (src/app.py lines 170-182) with the filter and the
new age as parameters: select by the filter, `results.one()`, set `age`,
commit the UPDATE of that row, `session.refresh(hero)` and return the
store-confirmed value together with the new database. -/
def update_heroes (pred : HeroRow → Bool) (newAge : Option Int) (db : DB) :
    Except OrmError (DB × HeroRow) := do
  let hero ← one (selectWhere pred db)
  let hero := { hero with age := newAge }
  let db := { db with
    heroes := db.heroes.map (fun r => if r.id = hero.id then hero else r) }
  .ok (db, hero)

/-- `delete_heroes` (src/app.py lines 185-206) with the filter as a
parameter: select by the filter, `results.one()`, `session.delete(hero)`
and commit the DELETE of that row. The returned `HeroRow` is the
in-memory object, which still holds its pre-delete field values. -/
def delete_heroes (pred : HeroRow → Bool) (db : DB) :
    Except OrmError (DB × HeroRow) := do
  let hero ← one (selectWhere pred db)
  let db := { db with
    heroes := db.heroes.filter (fun r => ¬ r.id = hero.id) }
  .ok (db, hero)

/-- `session.refresh(obj)`: reload the row with the primary key of the
given instance; if the row is gone from the database this raises instead
of silently doing nothing (src/app.py line 195 comment). -/
def refresh (h : HeroRow) (db : DB) : Except OrmError HeroRow :=
  match db.heroes.find? (fun r => r.id = h.id) with
  | some r => .ok r
  | none => .error .invalidRequest

/-- A foreign-key constraint of the schema, as recorded in the table
metadata. -/
structure ForeignKey where
  fromTable : String
  fromCol : String
  toTable : String
  toCol : String
deriving Repr, DecidableEq

/-- The foreign keys declared in src/app.py: only
`hero.team_id REFERENCES team.id` (line 41). -/
def appForeignKeys : List ForeignKey :=
  [⟨"hero", "team_id", "team", "id"⟩]

/-- Inference of the ON clause for `join(Team)` when no explicit ON part
is given: SQLAlchemy looks for foreign-key constraints between the two
tables being joined. No constraint raises `NoForeignKeysError`; several
raise `AmbiguousForeignKeysError`; exactly one gives the ON columns. -/
inductive JoinError where
  | noForeignKeys : JoinError
  | ambiguousForeignKeys : JoinError
deriving Repr, DecidableEq

/-- Derive the ON clause of a join between two tables from the declared
foreign keys, as core join-condition inference does. -/
def joinCondition (fks : List ForeignKey) (left right : String) :
    Except JoinError (String × String) :=
  match fks.filter (fun fk =>
      (fk.fromTable = left ∧ fk.toTable = right) ∨
      (fk.fromTable = right ∧ fk.toTable = left)) with
  | [] => .error .noForeignKeys
  | [fk] => .ok (fk.fromCol, fk.toCol)
  | _ :: _ :: _ => .error .ambiguousForeignKeys

/-- The integer-valued columns of a `hero` row, for evaluating an
inferred ON clause; a missing value is SQL NULL. -/
def HeroRow.colVal (h : HeroRow) (c : String) : Option Int :=
  if c = "id" then some h.id
  else if c = "team_id" then h.team_id.map (fun n => (n : Int))
  else if c = "age" then h.age
  else none

/-- The integer-valued columns of a `team` row. -/
def TeamRow.colVal (t : TeamRow) (c : String) : Option Int :=
  if c = "id" then some t.id
  else none

/-- SQL equality in an ON clause: true only when both sides are non-NULL
and equal. -/
def sqlEq (a b : Option Int) : Bool :=
  match a, b with
  | some x, some y => x = y
  | _, _ => false

/-- The output rows a single hero contributes to
`hero LEFT OUTER JOIN team ON lcol = rcol`: one row per matching team,
or the hero paired with NULL when no team matches. -/
def leftJoinRow (db : DB) (lcol rcol : String) (h : HeroRow) :
    List (HeroRow × Option TeamRow) :=
  match db.teams.filter (fun t => sqlEq (h.colVal lcol) (t.colVal rcol)) with
  | [] => [(h, none)]
  | ms => ms.map (fun t => (h, some t))

/-- `select_heroes` (src/app.py lines 139-167), the executed statement
`select(Hero, Team).join(Team, isouter=True)`: infer the ON clause from
the foreign keys, then evaluate the LEFT OUTER JOIN row by row in stored
order. -/
def select_heroes (db : DB) : Except JoinError (List (HeroRow × Option TeamRow)) := do
  let (lcol, rcol) ← joinCondition appForeignKeys "hero" "team"
  .ok (db.heroes.flatMap (leftJoinRow db lcol rcol))

/-- An in-memory `Team` instance (src/app.py lines 6-20): possibly not
yet persisted (`id = none`), with the relationship attribute `heroes`
holding references (object identities) to `Hero` instances. -/
structure TeamObj where
  id : Option Nat
  name : String
  headquarters : String
  heroes : List Nat
deriving Repr, DecidableEq

/-- An in-memory `Hero` instance (src/app.py lines 23-42): possibly not
yet persisted, with the foreign-key attribute `team_id` and the
relationship attribute `team` holding a reference (object identity) to a
`Team` instance. -/
structure HeroObj where
  id : Option Nat
  name : String
  secret_name : String
  age : Option Int
  team_id : Option Nat
  team : Option Nat
deriving Repr, DecidableEq

/-- The in-memory object graph: Python objects addressed by object
identity. Team identities and hero identities live in separate maps, as
the relationship attributes always name an object of the other class. -/
structure Mem where
  team : Nat → Option TeamObj
  hero : Nat → Option HeroObj

/-- Drop a hero reference from the `heroes` collection of the given team
object: the `back_populates` machinery does this to the previous team
when a hero is moved to another team. -/
def Mem.removeHeroFrom (mem : Mem) (tOid hOid : Nat) : Mem :=
  { mem with team := fun o =>
      match mem.team o with
      | some tObj => if o = tOid then some { tObj with heroes := tObj.heroes.erase hOid } else some tObj
      | none => none }

/-- Assigning `hero.team = team` (as in `Hero(..., team=team_z_force)`,
src/app.py line 79): sets the scalar side, and `back_populates` reflects
the change on the reverse side by removing the hero from the collection
of its previous team and appending it to the collection of the new one. -/
def Mem.setHeroTeam (mem : Mem) (hOid tOid : Nat) : Mem :=
  match mem.hero hOid with
  | none => mem
  | some ho =>
    let mem1 : Mem :=
      match ho.team with
      | some old => if old = tOid then mem else mem.removeHeroFrom old hOid
      | none => mem
    let mem2 : Mem := { mem1 with
      hero := fun o => if o = hOid then some { ho with team := some tOid } else mem1.hero o }
    match mem2.team tOid with
    | none => mem2
    | some tObj => { mem2 with
        team := fun o => if o = tOid then
            some { tObj with heroes := if hOid ∈ tObj.heroes then tObj.heroes else tObj.heroes ++ [hOid] }
          else mem2.team o }

/-- Appending to `team.heroes` (as in `team_wakanda.heroes.append(hero_5)`,
src/app.py line 91): appends to the collection side, and `back_populates`
reflects the change on the reverse side by setting the scalar `team`
attribute of the hero (removing it from the collection of its previous
team). -/
def Mem.appendTeamHero (mem : Mem) (tOid hOid : Nat) : Mem :=
  match mem.team tOid, mem.hero hOid with
  | some tObj, some ho =>
    let mem1 : Mem :=
      match ho.team with
      | some old => if old = tOid then mem else mem.removeHeroFrom old hOid
      | none => mem
    let mem2 : Mem :=
      match mem1.team tOid with
      | some tObj1 => { mem1 with
          team := fun o => if o = tOid then
              some { tObj1 with heroes := if hOid ∈ tObj1.heroes then tObj1.heroes else tObj1.heroes ++ [hOid] }
            else mem1.team o }
      | none => { mem1 with
          team := fun o => if o = tOid then
              some { tObj with heroes := if hOid ∈ tObj.heroes then tObj.heroes else tObj.heroes ++ [hOid] }
            else mem1.team o }
    { mem2 with
      hero := fun o => if o = hOid then some { ho with team := some tOid } else mem2.hero o }
  | _, _ => mem

/-- Flushing an unsaved team object: INSERT the `team` row, let the
database assign the next primary key, and write the assigned id back
into the in-memory object. A team that already has an id needs no
INSERT. -/
def flushTeam (mem : Mem) (db : DB) (tOid : Nat) : Mem × DB :=
  match mem.team tOid with
  | none => (mem, db)
  | some tObj =>
    match tObj.id with
    | some _ => (mem, db)
    | none =>
      let n := db.nextTeamId
      ({ mem with team := fun o => if o = tOid then some { tObj with id := some n } else mem.team o },
       { db with
         teams := db.teams ++ [⟨n, tObj.name, tObj.headquarters⟩],
         nextTeamId := n + 1 })

/-- Flushing a hero object during commit (src/app.py lines 103-115): the
save-update cascade first flushes the related team object when it is
still unsaved, then resolves the assigned team id into the `team_id`
foreign-key attribute, then INSERTs (or, for a persistent hero, UPDATEs)
the `hero` row. -/
def flushHero (mem : Mem) (db : DB) (hOid : Nat) : Mem × DB :=
  match mem.hero hOid with
  | none => (mem, db)
  | some ho =>
    let st1 :=
      match ho.team with
      | none => (mem, db)
      | some tOid => flushTeam mem db tOid
    let mem1 := st1.1
    let db1 := st1.2
    let tid : Option Nat :=
      match ho.team with
      | none => ho.team_id
      | some tOid => (mem1.team tOid).bind (fun tObj => tObj.id)
    match ho.id with
    | none =>
      let m := db1.nextHeroId
      ({ mem1 with hero := fun o =>
          if o = hOid then some { ho with id := some m, team_id := tid } else mem1.hero o },
       { db1 with
         heroes := db1.heroes ++ [⟨m, ho.name, ho.secret_name, ho.age, tid⟩],
         nextHeroId := m + 1 })
    | some m =>
      ({ mem1 with hero := fun o =>
          if o = hOid then some { ho with team_id := tid } else mem1.hero o },
       { db1 with heroes := db1.heroes.map (fun r =>
          if r.id = m then { r with name := ho.name, secret_name := ho.secret_name, age := ho.age, team_id := tid } else r) })

/-- An object handed to `session.add`: either a hero root or a team
root (src/app.py lines 103-105 add two heroes and one team). -/
inductive Added where
  | hero : Nat → Added
  | team : Nat → Added
deriving Repr, DecidableEq

/-- Flushing one added root object: a hero root cascades to its team
(`flushHero`); a team root is inserted and then cascades to every hero
in its `heroes` collection. -/
def flushAdded (st : Mem × DB) (a : Added) : Mem × DB :=
  match a with
  | .hero hOid => flushHero st.1 st.2 hOid
  | .team tOid =>
    let st1 := flushTeam st.1 st.2 tOid
    match st1.1.team tOid with
    | none => st1
    | some tObj => tObj.heroes.foldl (fun st2 hOid => flushHero st2.1 st2.2 hOid) st1

/-- `session.commit()` (src/app.py line 115): flush every object added to
the session, with the save-update cascade pulling in the related objects,
in one transaction. -/
def commit (mem : Mem) (added : List Added) (db : DB) : Mem × DB :=
  added.foldl flushAdded (mem, db)

end App

namespace Main

/-- A persisted row of the `team` table (src/main.py lines 13-16). -/
structure TeamRow where
  id : Nat
  name : String
  headquarters : String
deriving Repr, DecidableEq

/-- A persisted row of the `hero` table in the many-to-many variant
(src/main.py lines 42-70): the fields inherited from `HeroBase` (`name`,
`secret_name`, `age`) plus the primary key `id`. The `team_id` foreign
key of the one-to-many variant is commented out (line 68): this table
has NO `team_id` column. -/
structure HeroRow where
  id : Nat
  name : String
  secret_name : String
  age : Option Int
deriving Repr, DecidableEq

/-- A row of the `heroteamlink` through table (src/main.py lines 7-10):
composite primary key of two foreign keys. -/
structure LinkRow where
  team_id : Nat
  hero_id : Nat
deriving Repr, DecidableEq

/-- The SQLite database of the many-to-many variant. -/
structure DB where
  tables : List String
  teams : List TeamRow
  heroes : List HeroRow
  links : List LinkRow
  nextTeamId : Nat
  nextHeroId : Nat
deriving Repr, DecidableEq

/-- A Python value produced by reading an attribute of a model
instance. -/
inductive PyVal where
  | pInt : Int → PyVal
  | pStr : String → PyVal
  | pNone : PyVal
  /-- A relationship collection handle (the `teams` attribute). -/
  | pRel : PyVal
deriving Repr, DecidableEq

/-- A Python-level error raised while running a function of
src/main.py. -/
inductive PyError where
  /-- `AttributeError`: the instance has no attribute of that name. -/
  | attributeError : String → PyError
  /-- `sqlalchemy.orm.exc.UnmappedInstanceError`: `session.add` on an
  instance of a class that is not mapped to a table. -/
  | unmappedInstance : String → PyError
  /-- `sqlalchemy.exc.InvalidRequestError`: refresh of a vanished row. -/
  | invalidRequest : PyError
deriving Repr, DecidableEq

/-- Python attribute access on a `Hero` instance of the many-to-many
variant. The attributes are exactly those declared on `HeroBase`
(src/main.py lines 42-51) and `Hero` (lines 54-70): `name`,
`secret_name`, `age`, `id` and the relationship `teams`. Any other
name, in particular `team_id`, raises `AttributeError`. -/
def HeroRow.getattr (h : HeroRow) (a : String) : Except PyError PyVal :=
  if a = "name" then .ok (.pStr h.name)
  else if a = "secret_name" then .ok (.pStr h.secret_name)
  else if a = "age" then .ok (match h.age with | some n => .pInt n | none => .pNone)
  else if a = "id" then .ok (.pInt h.id)
  else if a = "teams" then .ok .pRel
  else .error (.attributeError a)

/-- The tables registered in `SQLModel.metadata` by the three model
classes of src/main.py that carry `table=True`. -/
def metadataTables : List String := ["heroteamlink", "team", "hero"]

/-- CREATE TABLE IF NOT EXISTS for the many-to-many schema. -/
def createTable (db : DB) (t : String) : DB :=
  if t ∈ db.tables then db
  else { db with tables := db.tables ++ [t] }

/-- `create_db_and_tables` (src/main.py lines 97-102). -/
def create_db_and_tables (db : DB) : DB :=
  metadataTables.foldl createTable db

/-- `create_heroes` (src/main.py lines 105-167). The commit flushes the
object graph built in the function body: three teams, five heroes and
one link row per (hero, team) association, with store-assigned ids. The
code after the commit reads `hero_1.id`, `hero_1.name`, refreshes
`hero_2` and then reads `hero_2.team_id`. The function returns the
database as left by the commit together with the outcome of that
post-commit section. -/
def create_heroes (db : DB) : DB × Except PyError PyVal :=
  let n := db.nextTeamId
  let m := db.nextHeroId
  let db1 : DB := { db with
    teams := db.teams ++
      [⟨n, "Z-Force", "Sister Margaret’s Bar"⟩,
       ⟨n + 1, "Preventers", "Sharp Tower"⟩,
       ⟨n + 2, "Wakanda", "Wakanda"⟩],
    heroes := db.heroes ++
      [⟨m, "Deadpond", "Dive Wilson", none⟩,
       ⟨m + 1, "Spider-Boy", "Pedro Parqueador", none⟩,
       ⟨m + 2, "Black Lion", "Trevor Challa", some 35⟩,
       ⟨m + 3, "Princess Sure-E", "Sure-E", some 25⟩,
       ⟨m + 4, "Rusty-Man", "Tommy Sharp", some 48⟩],
    links := db.links ++
      [⟨n, m⟩, ⟨n + 1, m + 1⟩, ⟨n + 2, m + 2⟩, ⟨n + 2, m + 3⟩, ⟨n + 2, m + 4⟩],
    nextTeamId := n + 3,
    nextHeroId := m + 5 }
  let outcome : Except PyError PyVal := do
    let hero_1 : HeroRow := ⟨m, "Deadpond", "Dive Wilson", none⟩
    let _ ← hero_1.getattr "id"
    let _ ← hero_1.getattr "name"
    let hero_2 ←
      match db1.heroes.find? (fun r => r.id = m + 1) with
      | some r => Except.ok r
      | none => Except.error PyError.invalidRequest
    hero_2.getattr "team_id"
  (db1, outcome)

/-- The foreign keys declared in src/main.py: both live on the
`heroteamlink` through table (lines 9-10); the direct
`hero.team_id REFERENCES team.id` key is commented out (line 68). -/
def mainForeignKeys : List App.ForeignKey :=
  [⟨"heroteamlink", "team_id", "team", "id"⟩,
   ⟨"heroteamlink", "hero_id", "hero", "id"⟩]

/-- The integer-valued columns of a many-to-many `hero` row. -/
def HeroRow.colVal (h : HeroRow) (c : String) : Option Int :=
  if c = "id" then some h.id
  else if c = "age" then h.age
  else none

/-- The integer-valued columns of a `team` row. -/
def TeamRow.colVal (t : TeamRow) (c : String) : Option Int :=
  if c = "id" then some t.id
  else none

/-- `select_heroes` (src/main.py lines 170-196), the statement
`select(Hero, Team).join(Team, isouter=True)`: the ON clause must be
inferred from foreign keys between `hero` and `team` directly; the
through table is not consulted by join-condition inference. -/
def select_heroes (db : DB) : Except App.JoinError (List (HeroRow × Option TeamRow)) := do
  let (lcol, rcol) ← App.joinCondition mainForeignKeys "hero" "team"
  .ok (db.heroes.flatMap (fun h =>
    match db.teams.filter (fun t => App.sqlEq (h.colVal lcol) (t.colVal rcol)) with
    | [] => [(h, none)]
    | ms => ms.map (fun t => (h, some t))))

/-- The request body of `POST /heroes` (src/main.py lines 73-74):
`HeroCreate` has the `HeroBase` fields and no `id`. -/
structure HeroCreate where
  name : String
  secret_name : String
  age : Option Int
deriving Repr, DecidableEq

/-- An in-memory `Hero` instance of the many-to-many variant, before or
after persistence. -/
structure HeroObj where
  id : Option Nat
  name : String
  secret_name : String
  age : Option Int
deriving Repr, DecidableEq

/-- `Hero.model_validate(hero)` (src/main.py line 252): build a new
`Hero` instance from the fields of the input object; `id` stays
unset. -/
def modelValidate (c : HeroCreate) : HeroObj :=
  ⟨none, c.name, c.secret_name, c.age⟩

/-- A Python object handed to the session in `create_hero`: either a
`Hero` instance (`table=True`, mapped) or a `HeroCreate` instance (a
plain data model, not mapped to any table). -/
inductive PyObj where
  | heroObj : HeroObj → PyObj
  | heroCreateObj : HeroCreate → PyObj
deriving Repr, DecidableEq

/-- `session.add(obj)`: accepts only instances of mapped (table) classes
and raises `UnmappedInstanceError` for anything else. -/
def sessionAdd (o : PyObj) : Except PyError PyObj :=
  match o with
  | .heroObj _ => .ok o
  | .heroCreateObj _ =>
    .error (.unmappedInstance "Class HeroCreate is not mapped")

/-- `session.commit()` for a session holding one added object: an
unsaved `Hero` instance is INSERTed and gets the next primary key. -/
def commitObj (db : DB) (o : PyObj) : DB × PyObj :=
  match o with
  | .heroObj h =>
    match h.id with
    | none =>
      let m := db.nextHeroId
      ({ db with
         heroes := db.heroes ++ [⟨m, h.name, h.secret_name, h.age⟩],
         nextHeroId := m + 1 },
       .heroObj { h with id := some m })
    | some _ => (db, o)
  | .heroCreateObj _ => (db, o)

/-- `session.refresh(obj)` for the object returned by the commit. -/
def refreshObj (db : DB) (o : PyObj) : Except PyError PyObj :=
  match o with
  | .heroObj h =>
    match h.id with
    | some m =>
      match db.heroes.find? (fun r => r.id = m) with
      | some r => .ok (.heroObj ⟨some r.id, r.name, r.secret_name, r.age⟩)
      | none => .error .invalidRequest
    | none => .error .invalidRequest
  | .heroCreateObj _ => .error (.unmappedInstance "Class HeroCreate is not mapped")

/-- `create_hero` (src/main.py lines 247-256) as written in the source:
it builds `db_hero` with `Hero.model_validate(hero)` but then passes the
INPUT object `hero` (a `HeroCreate`) to `session.add`, commits, refreshes
`hero` and returns `hero`; `db_hero` is never used again. -/
def create_hero (input : HeroCreate) (db : DB) : Except PyError (PyObj × DB) := do
  let _db_hero : HeroObj := modelValidate input
  let added ← sessionAdd (.heroCreateObj input)
  let (db1, obj) := commitObj db added
  let refreshed ← refreshObj db1 obj
  .ok (refreshed, db1)

/-- `read_heroes` (src/main.py lines 258-262): all rows of the `hero`
table. -/
def read_heroes (db : DB) : List HeroRow :=
  db.heroes

end Main

/-!
## Theorems

One theorem per claim of the specification, plus shared helper lemmas.
-/

/-- Helper: `find?` over an appended list where nothing on the left
matches. -/
theorem find?_append_eq_right {α : Type} (p : α → Bool) (l₁ l₂ : List α)
    (h : ∀ x ∈ l₁, ¬ p x) : (l₁ ++ l₂).find? p = l₂.find? p := by
  rw [List.find?_append, List.find?_eq_none.mpr h, Option.none_or]

/-- Claim C1: as written, `create_hero` never persists a row and never
returns the persisted shape: it passes the unmapped `HeroCreate` input to
`session.add`, which raises `UnmappedInstanceError` on every valid
input. -/
theorem claimC1_create_hero_always_unmapped (input : Main.HeroCreate) (db : Main.DB) :
    Main.create_hero input db =
      .error (.unmappedInstance "Class HeroCreate is not mapped") := rfl

/-- Claim C10: in the many-to-many variant, the join of `hero` directly
to `team` cannot infer an ON clause because no foreign key links the two
tables directly, so every call of `select_heroes` fails with
`NoForeignKeysError` instead of returning (Hero, Team) pairs. -/
theorem claimC10_select_heroes_m2m_no_foreign_keys (db : Main.DB) :
    Main.select_heroes db = .error App.JoinError.noForeignKeys := rfl

/-- Claim C9: in the many-to-many variant, `create_heroes` never
completes normally: after the commit succeeds it reads `team_id` on the
refreshed `hero_2`, but the many-to-many `Hero` model has no `team_id`
attribute, so the post-commit section always raises `AttributeError`.
The hypothesis states that the stored rows respect the autoincrement
counter. -/
theorem claimC9_create_heroes_m2m_attribute_error (db : Main.DB)
    (hwf : ∀ r ∈ db.heroes, r.id < db.nextHeroId) :
    (Main.create_heroes db).2 = .error (.attributeError "team_id") := by
  have hnone : db.heroes.find? (fun r => r.id = db.nextHeroId + 1) = none := by
    rw [List.find?_eq_none]
    intro x hx
    simpa using Nat.ne_of_lt (Nat.lt_succ_of_lt (hwf x hx))
  simp only [Main.create_heroes, Main.HeroRow.getattr]
  rw [find?_append_eq_right _ _ _ (by
    intro x hx
    simpa using Nat.ne_of_lt (Nat.lt_succ_of_lt (hwf x hx)))]
  simp [List.find?, Nat.ne_of_lt (Nat.lt_succ_self db.nextHeroId)]
  rfl

/-- Witness for claim C9 at the empty database. -/
theorem claimC9_create_heroes_m2m_attribute_error_witness :
    (Main.create_heroes ⟨["heroteamlink", "team", "hero"], [], [], [], 1, 1⟩).2 =
      .error (.attributeError "team_id") :=
  claimC9_create_heroes_m2m_attribute_error _ (by simp)

/-- Helper: creating one table if absent keeps every stored row and the
counters (one-to-many schema). -/
theorem App_createTable_data (db : App.DB) (t : String) :
    (App.createTable db t).heroes = db.heroes ∧
    (App.createTable db t).teams = db.teams := by
  unfold App.createTable
  split_ifs <;> exact ⟨rfl, rfl⟩

/-- Helper: the created table is present afterwards (one-to-many
schema). -/
theorem App_createTable_mem (db : App.DB) (t : String) :
    t ∈ (App.createTable db t).tables := by
  unfold App.createTable
  split_ifs with h
  · exact h
  · simp

/-- Helper: already-present tables stay present (one-to-many schema). -/
theorem App_createTable_mem_mono (db : App.DB) (s t : String)
    (h : t ∈ db.tables) : t ∈ (App.createTable db s).tables := by
  unfold App.createTable
  split_ifs <;> simp [h]

/-- Helper: creating a table that already exists is a no-op
(one-to-many schema). -/
theorem App_createTable_eq_of_mem (db : App.DB) (t : String)
    (h : t ∈ db.tables) : App.createTable db t = db := by
  unfold App.createTable
  exact if_pos h

/-- Helper: creating an absent table preserves well-formedness of the
table list (one-to-many schema). -/
theorem App_createTable_nodup (db : App.DB) (t : String)
    (h : db.tables.Nodup) : (App.createTable db t).tables.Nodup := by
  unfold App.createTable
  split_ifs with hmem
  · exact h
  · refine List.Nodup.append h (List.nodup_singleton t) ?_
    intro a ha hb
    simp only [List.mem_singleton] at hb
    exact hmem (hb ▸ ha)

/-- Helper: creating one table if absent keeps every stored row
(many-to-many schema). -/
theorem Main_createTable_data (db : Main.DB) (t : String) :
    (Main.createTable db t).heroes = db.heroes ∧
    (Main.createTable db t).teams = db.teams ∧
    (Main.createTable db t).links = db.links := by
  unfold Main.createTable
  split_ifs <;> exact ⟨rfl, rfl, rfl⟩

/-- Helper: the created table is present afterwards (many-to-many
schema). -/
theorem Main_createTable_mem (db : Main.DB) (t : String) :
    t ∈ (Main.createTable db t).tables := by
  unfold Main.createTable
  split_ifs with h
  · exact h
  · simp

/-- Helper: already-present tables stay present (many-to-many
schema). -/
theorem Main_createTable_mem_mono (db : Main.DB) (s t : String)
    (h : t ∈ db.tables) : t ∈ (Main.createTable db s).tables := by
  unfold Main.createTable
  split_ifs <;> simp [h]

/-- Helper: creating a table that already exists is a no-op
(many-to-many schema). -/
theorem Main_createTable_eq_of_mem (db : Main.DB) (t : String)
    (h : t ∈ db.tables) : Main.createTable db t = db := by
  unfold Main.createTable
  exact if_pos h

/-- Helper: creating an absent table preserves well-formedness of the
table list (many-to-many schema). -/
theorem Main_createTable_nodup (db : Main.DB) (t : String)
    (h : db.tables.Nodup) : (Main.createTable db t).tables.Nodup := by
  unfold Main.createTable
  split_ifs with hmem
  · exact h
  · refine List.Nodup.append h (List.nodup_singleton t) ?_
    intro a ha hb
    simp only [List.mem_singleton] at hb
    exact hmem (hb ▸ ha)

/-- Claim C7: table materialization is idempotent. For both variants,
invoking `create_db_and_tables` a second time leaves the store exactly
as after the first call, creates no duplicate tables, and loses no
stored data. -/
theorem claimC7_create_db_and_tables_idempotent (db : App.DB) (db2 : Main.DB)
    (h1 : db.tables.Nodup) (h2 : db2.tables.Nodup) :
    App.create_db_and_tables (App.create_db_and_tables db) = App.create_db_and_tables db ∧
    (App.create_db_and_tables db).heroes = db.heroes ∧
    (App.create_db_and_tables db).teams = db.teams ∧
    (App.create_db_and_tables db).tables.Nodup ∧
    Main.create_db_and_tables (Main.create_db_and_tables db2) = Main.create_db_and_tables db2 ∧
    (Main.create_db_and_tables db2).heroes = db2.heroes ∧
    (Main.create_db_and_tables db2).teams = db2.teams ∧
    (Main.create_db_and_tables db2).links = db2.links ∧
    (Main.create_db_and_tables db2).tables.Nodup := by
  have happ : ∀ d : App.DB, App.create_db_and_tables d =
      App.createTable (App.createTable d "team") "hero" := fun d => rfl
  have hmain : ∀ d : Main.DB, Main.create_db_and_tables d =
      Main.createTable (Main.createTable (Main.createTable d "heroteamlink") "team") "hero" :=
    fun d => rfl
  refine ⟨?_, ?_, ?_, ?_, ?_, ?_, ?_, ?_, ?_⟩
  · rw [happ, happ]
    have m1 : "team" ∈ (App.createTable (App.createTable db "team") "hero").tables :=
      App_createTable_mem_mono _ _ _ (App_createTable_mem db "team")
    rw [App_createTable_eq_of_mem _ _ m1]
    have m2 : "hero" ∈ (App.createTable (App.createTable db "team") "hero").tables :=
      App_createTable_mem _ _
    rw [App_createTable_eq_of_mem _ _ m2]
  · rw [happ]
    rw [(App_createTable_data _ "hero").1, (App_createTable_data db "team").1]
  · rw [happ]
    rw [(App_createTable_data _ "hero").2, (App_createTable_data db "team").2]
  · rw [happ]
    exact App_createTable_nodup _ _ (App_createTable_nodup _ _ h1)
  · rw [hmain, hmain]
    have m0 : "heroteamlink" ∈ (Main.createTable (Main.createTable (Main.createTable db2
        "heroteamlink") "team") "hero").tables :=
      Main_createTable_mem_mono _ _ _
        (Main_createTable_mem_mono _ _ _ (Main_createTable_mem db2 "heroteamlink"))
    rw [Main_createTable_eq_of_mem _ _ m0]
    have m1 : "team" ∈ (Main.createTable (Main.createTable (Main.createTable db2
        "heroteamlink") "team") "hero").tables :=
      Main_createTable_mem_mono _ _ _ (Main_createTable_mem _ "team")
    rw [Main_createTable_eq_of_mem _ _ m1]
    have m2 : "hero" ∈ (Main.createTable (Main.createTable (Main.createTable db2
        "heroteamlink") "team") "hero").tables :=
      Main_createTable_mem _ _
    rw [Main_createTable_eq_of_mem _ _ m2]
  · rw [hmain]
    rw [(Main_createTable_data _ "hero").1, (Main_createTable_data _ "team").1,
      (Main_createTable_data db2 "heroteamlink").1]
  · rw [hmain]
    rw [(Main_createTable_data _ "hero").2.1, (Main_createTable_data _ "team").2.1,
      (Main_createTable_data db2 "heroteamlink").2.1]
  · rw [hmain]
    rw [(Main_createTable_data _ "hero").2.2, (Main_createTable_data _ "team").2.2,
      (Main_createTable_data db2 "heroteamlink").2.2]
  · rw [hmain]
    exact Main_createTable_nodup _ _
      (Main_createTable_nodup _ _ (Main_createTable_nodup _ _ h2))

/-- Witness for claim C7 at two empty stores. -/
theorem claimC7_create_db_and_tables_idempotent_witness :
    App.create_db_and_tables (App.create_db_and_tables ⟨[], [], [], 1, 1⟩) =
      App.create_db_and_tables ⟨[], [], [], 1, 1⟩ ∧
    (App.create_db_and_tables ⟨[], [], [], 1, 1⟩).heroes = [] ∧
    (App.create_db_and_tables ⟨[], [], [], 1, 1⟩).teams = [] ∧
    (App.create_db_and_tables ⟨[], [], [], 1, 1⟩).tables.Nodup ∧
    Main.create_db_and_tables (Main.create_db_and_tables ⟨[], [], [], [], 1, 1⟩) =
      Main.create_db_and_tables ⟨[], [], [], [], 1, 1⟩ ∧
    (Main.create_db_and_tables ⟨[], [], [], [], 1, 1⟩).heroes = [] ∧
    (Main.create_db_and_tables ⟨[], [], [], [], 1, 1⟩).teams = [] ∧
    (Main.create_db_and_tables ⟨[], [], [], [], 1, 1⟩).links = [] ∧
    (Main.create_db_and_tables ⟨[], [], [], [], 1, 1⟩).tables.Nodup :=
  claimC7_create_db_and_tables_idempotent ⟨[], [], [], 1, 1⟩ ⟨[], [], [], [], 1, 1⟩
    List.nodup_nil List.nodup_nil

/-- Claim C2: for every filter, `update_heroes` and `delete_heroes` fail
with the distinct no-result error when the filter matches zero rows and
with the distinct multiple-results error when it matches two or more
rows, and proceed exactly when one row matches; they never silently
operate on the first match. -/
theorem claimC2_update_delete_exactly_one (pred : App.HeroRow → Bool)
    (newAge : Option Int) (db : App.DB) :
    ((App.selectWhere pred db).length = 0 →
      App.update_heroes pred newAge db = .error .noResultFound ∧
      App.delete_heroes pred db = .error .noResultFound) ∧
    (2 ≤ (App.selectWhere pred db).length →
      App.update_heroes pred newAge db = .error .multipleResultsFound ∧
      App.delete_heroes pred db = .error .multipleResultsFound) ∧
    ((App.selectWhere pred db).length = 1 →
      (∃ out, App.update_heroes pred newAge db = .ok out) ∧
      (∃ out2, App.delete_heroes pred db = .ok out2)) := by
  unfold App.update_heroes App.delete_heroes App.one
  cases hsel : App.selectWhere pred db with
  | nil =>
    simp
    exact ⟨rfl, rfl⟩
  | cons x t =>
    cases t with
    | nil =>
      simp
      exact ⟨⟨_, _, rfl⟩, ⟨_, _, rfl⟩⟩
    | cons y t2 =>
      simp
      exact ⟨rfl, rfl⟩

/-- Witness for claim C2: a store with zero, two, and one Spider-Boy
rows respectively. -/
theorem claimC2_update_delete_exactly_one_witness :
    (App.update_heroes (App.nameIs "Spider-Boy") (some 16)
        ⟨["team", "hero"], [], [], 1, 1⟩ = .error .noResultFound ∧
      App.delete_heroes (App.nameIs "Spider-Boy")
        ⟨["team", "hero"], [], [], 1, 1⟩ = .error .noResultFound) ∧
    (App.update_heroes (App.nameIs "Spider-Boy") (some 16)
        ⟨["team", "hero"], [],
          [⟨1, "Spider-Boy", "Pedro Parqueador", none, none⟩,
           ⟨2, "Spider-Boy", "Pedro Parqueador", none, none⟩], 1, 3⟩ =
        .error .multipleResultsFound ∧
      App.delete_heroes (App.nameIs "Spider-Boy")
        ⟨["team", "hero"], [],
          [⟨1, "Spider-Boy", "Pedro Parqueador", none, none⟩,
           ⟨2, "Spider-Boy", "Pedro Parqueador", none, none⟩], 1, 3⟩ =
        .error .multipleResultsFound) ∧
    ((∃ out, App.update_heroes (App.nameIs "Spider-Boy") (some 16)
        ⟨["team", "hero"], [],
          [⟨1, "Spider-Boy", "Pedro Parqueador", none, none⟩], 1, 2⟩ = .ok out) ∧
      (∃ out2, App.delete_heroes (App.nameIs "Spider-Boy")
        ⟨["team", "hero"], [],
          [⟨1, "Spider-Boy", "Pedro Parqueador", none, none⟩], 1, 2⟩ = .ok out2)) :=
  ⟨(claimC2_update_delete_exactly_one (App.nameIs "Spider-Boy") (some 16)
      ⟨["team", "hero"], [], [], 1, 1⟩).1 (by decide),
   (claimC2_update_delete_exactly_one (App.nameIs "Spider-Boy") (some 16)
      ⟨["team", "hero"], [],
        [⟨1, "Spider-Boy", "Pedro Parqueador", none, none⟩,
         ⟨2, "Spider-Boy", "Pedro Parqueador", none, none⟩], 1, 3⟩).2.1 (by decide),
   (claimC2_update_delete_exactly_one (App.nameIs "Spider-Boy") (some 16)
      ⟨["team", "hero"], [],
        [⟨1, "Spider-Boy", "Pedro Parqueador", none, none⟩], 1, 2⟩).2.2 (by decide)⟩

/-- Claim C4: `select_heroes` of the one-to-many variant performs a left
outer join, so a stored hero with no team association appears in the
result paired with an absent team; the hero is never omitted. -/
theorem claimC4_select_heroes_outer_join (db : App.DB) (h : App.HeroRow)
    (hmem : h ∈ db.heroes) (hnone : h.team_id = none) :
    ∃ l, App.select_heroes db = .ok l ∧ (h, none) ∈ l := by
  refine ⟨db.heroes.flatMap (App.leftJoinRow db "team_id" "id"), rfl, ?_⟩
  rw [List.mem_flatMap]
  refine ⟨h, hmem, ?_⟩
  have hfilter : db.teams.filter
      (fun t => App.sqlEq (h.colVal "team_id") (t.colVal "id")) = [] := by
    rw [List.filter_eq_nil_iff]
    intro t _
    simp [App.HeroRow.colVal, App.sqlEq, hnone]
  unfold App.leftJoinRow
  rw [hfilter]
  simp

/-- Witness for claim C4: one stored hero with a NULL `team_id`. -/
theorem claimC4_select_heroes_outer_join_witness :
    ∃ l, App.select_heroes
        ⟨["team", "hero"], [⟨1, "Z-Force", "Sister Margaret’s Bar"⟩],
          [⟨1, "Deadpond", "Dive Wilson", none, none⟩], 2, 2⟩ = .ok l ∧
      ((⟨1, "Deadpond", "Dive Wilson", none, none⟩ : App.HeroRow), none) ∈ l :=
  claimC4_select_heroes_outer_join _ _ (by simp) rfl

/-- Claim C6: the select with predicate and pagination: over a store of
7 heroes, filtering by `age < 35` with offset 2 and limit 3 returns
exactly the 3rd through 5th matching rows, in stored (insertion /
primary-key) order. -/
theorem claimC6_select_offset_limit (db : App.DB)
    (_h7 : db.heroes.length = 7)
    (h5 : 5 ≤ (db.heroes.filter (App.ageLt 35)).length) :
    (App.selectAgeOffsetLimit 35 2 3 db).length = 3 ∧
    (App.selectAgeOffsetLimit 35 2 3 db)[0]? = (db.heroes.filter (App.ageLt 35))[2]? ∧
    (App.selectAgeOffsetLimit 35 2 3 db)[1]? = (db.heroes.filter (App.ageLt 35))[3]? ∧
    (App.selectAgeOffsetLimit 35 2 3 db)[2]? = (db.heroes.filter (App.ageLt 35))[4]? := by
  unfold App.selectAgeOffsetLimit
  refine ⟨?_, ?_, ?_, ?_⟩
  · rw [List.length_take, List.length_drop]
    omega
  · rw [List.getElem?_take_of_lt (by omega), List.getElem?_drop]
  · rw [List.getElem?_take_of_lt (by omega), List.getElem?_drop]
  · rw [List.getElem?_take_of_lt (by omega), List.getElem?_drop]

/-- Witness for claim C6: 7 stored heroes, six of them younger than
35. -/
theorem claimC6_select_offset_limit_witness :
    (App.selectAgeOffsetLimit 35 2 3
        ⟨["team", "hero"], [],
          [⟨1, "Deadpond", "Dive Wilson", some 32, none⟩,
           ⟨2, "Spider-Boy", "Pedro Parqueador", some 20, none⟩,
           ⟨3, "Rusty-Man", "Tommy Sharp", some 10, none⟩,
           ⟨4, "Tarantula", "Natalia Roman-on", some 5, none⟩,
           ⟨5, "Black Lion", "Trevor Challa", some 6, none⟩,
           ⟨6, "Dr. Weird", "Steve Weird", some 7, none⟩,
           ⟨7, "Captain North America", "Esteban Rogelios", some 93, none⟩], 1, 8⟩).length = 3 ∧
    (App.selectAgeOffsetLimit 35 2 3
        ⟨["team", "hero"], [],
          [⟨1, "Deadpond", "Dive Wilson", some 32, none⟩,
           ⟨2, "Spider-Boy", "Pedro Parqueador", some 20, none⟩,
           ⟨3, "Rusty-Man", "Tommy Sharp", some 10, none⟩,
           ⟨4, "Tarantula", "Natalia Roman-on", some 5, none⟩,
           ⟨5, "Black Lion", "Trevor Challa", some 6, none⟩,
           ⟨6, "Dr. Weird", "Steve Weird", some 7, none⟩,
           ⟨7, "Captain North America", "Esteban Rogelios", some 93, none⟩], 1, 8⟩)[0]? =
      (List.filter (App.ageLt 35)
          [⟨1, "Deadpond", "Dive Wilson", some 32, none⟩,
           ⟨2, "Spider-Boy", "Pedro Parqueador", some 20, none⟩,
           ⟨3, "Rusty-Man", "Tommy Sharp", some 10, none⟩,
           ⟨4, "Tarantula", "Natalia Roman-on", some 5, none⟩,
           ⟨5, "Black Lion", "Trevor Challa", some 6, none⟩,
           ⟨6, "Dr. Weird", "Steve Weird", some 7, none⟩,
           ⟨7, "Captain North America", "Esteban Rogelios", some 93, none⟩])[2]? ∧
    (App.selectAgeOffsetLimit 35 2 3
        ⟨["team", "hero"], [],
          [⟨1, "Deadpond", "Dive Wilson", some 32, none⟩,
           ⟨2, "Spider-Boy", "Pedro Parqueador", some 20, none⟩,
           ⟨3, "Rusty-Man", "Tommy Sharp", some 10, none⟩,
           ⟨4, "Tarantula", "Natalia Roman-on", some 5, none⟩,
           ⟨5, "Black Lion", "Trevor Challa", some 6, none⟩,
           ⟨6, "Dr. Weird", "Steve Weird", some 7, none⟩,
           ⟨7, "Captain North America", "Esteban Rogelios", some 93, none⟩], 1, 8⟩)[1]? =
      (List.filter (App.ageLt 35)
          [⟨1, "Deadpond", "Dive Wilson", some 32, none⟩,
           ⟨2, "Spider-Boy", "Pedro Parqueador", some 20, none⟩,
           ⟨3, "Rusty-Man", "Tommy Sharp", some 10, none⟩,
           ⟨4, "Tarantula", "Natalia Roman-on", some 5, none⟩,
           ⟨5, "Black Lion", "Trevor Challa", some 6, none⟩,
           ⟨6, "Dr. Weird", "Steve Weird", some 7, none⟩,
           ⟨7, "Captain North America", "Esteban Rogelios", some 93, none⟩])[3]? ∧
    (App.selectAgeOffsetLimit 35 2 3
        ⟨["team", "hero"], [],
          [⟨1, "Deadpond", "Dive Wilson", some 32, none⟩,
           ⟨2, "Spider-Boy", "Pedro Parqueador", some 20, none⟩,
           ⟨3, "Rusty-Man", "Tommy Sharp", some 10, none⟩,
           ⟨4, "Tarantula", "Natalia Roman-on", some 5, none⟩,
           ⟨5, "Black Lion", "Trevor Challa", some 6, none⟩,
           ⟨6, "Dr. Weird", "Steve Weird", some 7, none⟩,
           ⟨7, "Captain North America", "Esteban Rogelios", some 93, none⟩], 1, 8⟩)[2]? =
      (List.filter (App.ageLt 35)
          [⟨1, "Deadpond", "Dive Wilson", some 32, none⟩,
           ⟨2, "Spider-Boy", "Pedro Parqueador", some 20, none⟩,
           ⟨3, "Rusty-Man", "Tommy Sharp", some 10, none⟩,
           ⟨4, "Tarantula", "Natalia Roman-on", some 5, none⟩,
           ⟨5, "Black Lion", "Trevor Challa", some 6, none⟩,
           ⟨6, "Dr. Weird", "Steve Weird", some 7, none⟩,
           ⟨7, "Captain North America", "Esteban Rogelios", some 93, none⟩])[4]? :=
  claimC6_select_offset_limit _ (by decide) (by decide)

/-- Claim C5: when `delete_heroes` succeeds for a filter, the deleted
row was the unique match, a subsequent select with the same filter
returns no rows, the returned in-memory object still carries its
pre-delete field values (it is the very row that was stored), and
refreshing that object from the store afterwards is an explicit error,
not a silent no-op. -/
theorem claimC5_delete_then_select_empty (pred : App.HeroRow → Bool)
    (db db2 : App.DB) (hero : App.HeroRow)
    (h : App.delete_heroes pred db = .ok (db2, hero)) :
    App.selectWhere pred db2 = [] ∧
    hero ∈ db.heroes ∧ pred hero = true ∧
    App.refresh hero db2 = .error .invalidRequest := by
  unfold App.delete_heroes at h
  cases hsel : App.selectWhere pred db with
  | nil =>
    rw [hsel] at h
    exact Except.noConfusion h
  | cons x t =>
    cases t with
    | cons y t2 =>
      rw [hsel] at h
      exact Except.noConfusion h
    | nil =>
      rw [hsel] at h
      injection h with hpair
      injection hpair with hdb hx
      subst hx
      have hmem : x ∈ db.heroes ∧ pred x = true := by
        have hm : x ∈ App.selectWhere pred db := by
          rw [hsel]; exact List.mem_singleton_self x
        simpa [App.selectWhere] using hm
      have huniq : ∀ r ∈ db.heroes, pred r = true → r = x := by
        intro r hr hpr
        have hrsel : r ∈ App.selectWhere pred db := by
          simp [App.selectWhere, hpr, hr]
        rw [hsel] at hrsel
        simpa using hrsel
      refine ⟨?_, hmem.1, hmem.2, ?_⟩
      · rw [← hdb]
        simp only [App.selectWhere, List.filter_filter]
        rw [List.filter_eq_nil_iff]
        intro a ha
        by_cases hpa : pred a = true
        · have hae := huniq a ha hpa
          subst hae
          simp
        · simp [hpa]
      · unfold App.refresh
        have hfind : db2.heroes.find? (fun r => r.id = x.id) = none := by
          rw [List.find?_eq_none]
          intro z hz
          rw [← hdb] at hz
          simp only [List.mem_filter] at hz
          simpa using hz.2
        rw [hfind]

/-- Witness for claim C5: deleting the unique Spider-Boy row from a
two-hero store. -/
theorem claimC5_delete_then_select_empty_witness :
    App.selectWhere (App.nameIs "Spider-Boy")
      ⟨["team", "hero"], [], [⟨2, "Deadpond", "Dive Wilson", none, none⟩], 1, 3⟩ = [] ∧
    (⟨1, "Spider-Boy", "Pedro Parqueador", some 16, none⟩ : App.HeroRow) ∈
      ([⟨1, "Spider-Boy", "Pedro Parqueador", some 16, none⟩,
        ⟨2, "Deadpond", "Dive Wilson", none, none⟩] : List App.HeroRow) ∧
    App.nameIs "Spider-Boy" ⟨1, "Spider-Boy", "Pedro Parqueador", some 16, none⟩ = true ∧
    App.refresh ⟨1, "Spider-Boy", "Pedro Parqueador", some 16, none⟩
      ⟨["team", "hero"], [], [⟨2, "Deadpond", "Dive Wilson", none, none⟩], 1, 3⟩ =
      .error .invalidRequest :=
  claimC5_delete_then_select_empty (App.nameIs "Spider-Boy")
    ⟨["team", "hero"], [],
      [⟨1, "Spider-Boy", "Pedro Parqueador", some 16, none⟩,
       ⟨2, "Deadpond", "Dive Wilson", none, none⟩], 1, 3⟩
    ⟨["team", "hero"], [], [⟨2, "Deadpond", "Dive Wilson", none, none⟩], 1, 3⟩
    ⟨1, "Spider-Boy", "Pedro Parqueador", some 16, none⟩ rfl

/-- Helper: dropping a hero from one team object leaves the hero map
untouched. -/
theorem removeHeroFrom_hero (mem : App.Mem) (old hOid : Nat) :
    (mem.removeHeroFrom old hOid).hero = mem.hero := rfl

/-- Helper: dropping a hero from one team object leaves every other
team object untouched. -/
theorem removeHeroFrom_team_of_ne (mem : App.Mem) (old hOid t : Nat)
    (hne : ¬ t = old) :
    (mem.removeHeroFrom old hOid).team t = mem.team t := by
  unfold App.Mem.removeHeroFrom
  dsimp only
  cases hmt : mem.team t with
  | none => rfl
  | some u => simp [hne]

/-- Helper: full description of `setHeroTeam` on the two objects it
links: the hero ends up with `team = some tOid`, and the team object
ends up with the hero in its `heroes` collection. -/
theorem setHeroTeam_spec (mem : App.Mem) (hOid tOid : Nat)
    (ho : App.HeroObj) (tObj : App.TeamObj)
    (hh : mem.hero hOid = some ho) (ht : mem.team tOid = some tObj) :
    (mem.setHeroTeam hOid tOid).hero hOid = some { ho with team := some tOid } ∧
    (mem.setHeroTeam hOid tOid).team tOid =
      some { tObj with heroes :=
        if hOid ∈ tObj.heroes then tObj.heroes else tObj.heroes ++ [hOid] } := by
  cases hteam : ho.team with
  | none =>
    simp only [App.Mem.setHeroTeam, hh, hteam, ht]
    exact ⟨by simp, by simp⟩
  | some old =>
    by_cases hold : old = tOid
    · subst hold
      simp only [App.Mem.setHeroTeam, hh, hteam, if_pos rfl, ht]
      exact ⟨by simp [ht], by simp [ht]⟩
    · have hne : ¬ tOid = old := fun hc => hold hc.symm
      have hteamlook : (mem.removeHeroFrom old hOid).team tOid = some tObj := by
        rw [removeHeroFrom_team_of_ne _ _ _ _ hne, ht]
      simp only [App.Mem.setHeroTeam, hh, hteam, if_neg hold, hteamlook]
      exact ⟨by simp, by simp⟩

/-- Helper: full description of `appendTeamHero` on the two objects it
links: the team object gains the hero in its `heroes` collection, and
the hero scalar side is set to the team. -/
theorem appendTeamHero_spec (mem : App.Mem) (tOid hOid : Nat)
    (ho : App.HeroObj) (tObj : App.TeamObj)
    (hh : mem.hero hOid = some ho) (ht : mem.team tOid = some tObj) :
    (mem.appendTeamHero tOid hOid).hero hOid = some { ho with team := some tOid } ∧
    (mem.appendTeamHero tOid hOid).team tOid =
      some { tObj with heroes :=
        if hOid ∈ tObj.heroes then tObj.heroes else tObj.heroes ++ [hOid] } := by
  cases hteam : ho.team with
  | none =>
    simp only [App.Mem.appendTeamHero, hh, ht, hteam]
    exact ⟨by simp [ht], by simp [ht]⟩
  | some old =>
    by_cases hold : old = tOid
    · subst hold
      simp only [App.Mem.appendTeamHero, hh, ht, hteam, if_pos rfl]
      exact ⟨by simp [ht], by simp [ht]⟩
    · have hne : ¬ tOid = old := fun hc => hold hc.symm
      have hteamlook : (mem.removeHeroFrom old hOid).team tOid = some tObj := by
        rw [removeHeroFrom_team_of_ne _ _ _ _ hne, ht]
      simp only [App.Mem.appendTeamHero, hh, ht, hteam, if_neg hold, hteamlook]
      exact ⟨by simp [hteamlook], by simp [hteamlook]⟩

/-- Claim C8: setting the relationship on either side before commit is
reflected on the reverse side in memory. Assigning `hero.team = team`
makes the hero a member of the `heroes` collection of the team, and
appending a hero to `team.heroes` sets the `team` attribute of the hero,
so add/commit sees the two sides consistent. -/
theorem claimC8_back_populates_sync (mem : App.Mem) (hOid tOid : Nat)
    (ho : App.HeroObj) (tObj : App.TeamObj)
    (hh : mem.hero hOid = some ho) (ht : mem.team tOid = some tObj) :
    (∃ ho1, (mem.setHeroTeam hOid tOid).hero hOid = some ho1 ∧
      ho1.team = some tOid) ∧
    (∃ t1, (mem.setHeroTeam hOid tOid).team tOid = some t1 ∧
      hOid ∈ t1.heroes) ∧
    (∃ ho2, (mem.appendTeamHero tOid hOid).hero hOid = some ho2 ∧
      ho2.team = some tOid) ∧
    (∃ t2, (mem.appendTeamHero tOid hOid).team tOid = some t2 ∧
      hOid ∈ t2.heroes) := by
  obtain ⟨hs1, hs2⟩ := setHeroTeam_spec mem hOid tOid ho tObj hh ht
  obtain ⟨ha1, ha2⟩ := appendTeamHero_spec mem tOid hOid ho tObj hh ht
  refine ⟨⟨_, hs1, rfl⟩, ⟨_, hs2, ?_⟩, ⟨_, ha1, rfl⟩, ⟨_, ha2, ?_⟩⟩ <;>
  · by_cases hmem : hOid ∈ tObj.heroes
    · simp [hmem]
    · simp [hmem]

/-- Witness for claim C8: a fresh unsaved hero (object identity 0) and a
fresh unsaved team (object identity 1). -/
theorem claimC8_back_populates_sync_witness :
    (∃ ho1, ((⟨fun o => if o = 1 then some ⟨none, "Z-Force", "Sister Margaret’s Bar", []⟩ else none,
        fun o => if o = 0 then some ⟨none, "Deadpond", "Dive Wilson", none, none, none⟩ else none⟩ :
          App.Mem).setHeroTeam 0 1).hero 0 = some ho1 ∧ ho1.team = some 1) ∧
    (∃ t1, ((⟨fun o => if o = 1 then some ⟨none, "Z-Force", "Sister Margaret’s Bar", []⟩ else none,
        fun o => if o = 0 then some ⟨none, "Deadpond", "Dive Wilson", none, none, none⟩ else none⟩ :
          App.Mem).setHeroTeam 0 1).team 1 = some t1 ∧ 0 ∈ t1.heroes) ∧
    (∃ ho2, ((⟨fun o => if o = 1 then some ⟨none, "Z-Force", "Sister Margaret’s Bar", []⟩ else none,
        fun o => if o = 0 then some ⟨none, "Deadpond", "Dive Wilson", none, none, none⟩ else none⟩ :
          App.Mem).appendTeamHero 1 0).hero 0 = some ho2 ∧ ho2.team = some 1) ∧
    (∃ t2, ((⟨fun o => if o = 1 then some ⟨none, "Z-Force", "Sister Margaret’s Bar", []⟩ else none,
        fun o => if o = 0 then some ⟨none, "Deadpond", "Dive Wilson", none, none, none⟩ else none⟩ :
          App.Mem).appendTeamHero 1 0).team 1 = some t2 ∧ 0 ∈ t2.heroes) :=
  claimC8_back_populates_sync _ 0 1
    ⟨none, "Deadpond", "Dive Wilson", none, none, none⟩
    ⟨none, "Z-Force", "Sister Margaret’s Bar", []⟩ rfl rfl

/-- Claim C3: committing a session holding a hero whose `team` attribute
references an unsaved team inserts the team row in the same single
commit, assigns it the next team id, resolves that id into the hero
foreign key, and inserts the hero row; afterwards the hero `team_id` and
the team `id` are non-null and equal, and both rows are stored. -/
theorem claimC3_single_commit_resolves_team_fk (mem : App.Mem) (db : App.DB)
    (hOid tOid : Nat) (ho : App.HeroObj) (tObj : App.TeamObj)
    (hh : mem.hero hOid = some ho) (hteam : ho.team = some tOid)
    (hnew : ho.id = none) (ht : mem.team tOid = some tObj)
    (hunsaved : tObj.id = none) :
    ∃ n,
      (App.commit mem [.hero hOid] db).1.hero hOid =
        some { ho with id := some db.nextHeroId, team_id := some n } ∧
      (App.commit mem [.hero hOid] db).1.team tOid =
        some { tObj with id := some n } ∧
      (⟨n, tObj.name, tObj.headquarters⟩ : App.TeamRow) ∈
        (App.commit mem [.hero hOid] db).2.teams ∧
      (⟨db.nextHeroId, ho.name, ho.secret_name, ho.age, some n⟩ : App.HeroRow) ∈
        (App.commit mem [.hero hOid] db).2.heroes := by
  refine ⟨db.nextTeamId, ?_, ?_, ?_, ?_⟩ <;>
    simp [App.commit, App.flushAdded, App.flushHero, App.flushTeam,
      hh, hteam, hnew, ht, hunsaved]

/-- Witness for claim C3: one unsaved hero (object identity 0) attached
to one unsaved team (object identity 1), committed against an empty
store. -/
theorem claimC3_single_commit_resolves_team_fk_witness :
    ∃ n,
      (App.commit
        ⟨fun o => if o = 1 then some ⟨none, "Z-Force", "Sister Margaret’s Bar", [0]⟩ else none,
         fun o => if o = 0 then some ⟨none, "Deadpond", "Dive Wilson", none, none, some 1⟩ else none⟩
        [.hero 0] ⟨["team", "hero"], [], [], 1, 1⟩).1.hero 0 =
        some { id := some 1, name := "Deadpond", secret_name := "Dive Wilson",
               age := none, team_id := some n, team := some 1 } ∧
      (App.commit
        ⟨fun o => if o = 1 then some ⟨none, "Z-Force", "Sister Margaret’s Bar", [0]⟩ else none,
         fun o => if o = 0 then some ⟨none, "Deadpond", "Dive Wilson", none, none, some 1⟩ else none⟩
        [.hero 0] ⟨["team", "hero"], [], [], 1, 1⟩).1.team 1 =
        some { id := some n, name := "Z-Force", headquarters := "Sister Margaret’s Bar",
               heroes := [0] } ∧
      (⟨n, "Z-Force", "Sister Margaret’s Bar"⟩ : App.TeamRow) ∈
        (App.commit
          ⟨fun o => if o = 1 then some ⟨none, "Z-Force", "Sister Margaret’s Bar", [0]⟩ else none,
           fun o => if o = 0 then some ⟨none, "Deadpond", "Dive Wilson", none, none, some 1⟩ else none⟩
          [.hero 0] ⟨["team", "hero"], [], [], 1, 1⟩).2.teams ∧
      (⟨1, "Deadpond", "Dive Wilson", none, some n⟩ : App.HeroRow) ∈
        (App.commit
          ⟨fun o => if o = 1 then some ⟨none, "Z-Force", "Sister Margaret’s Bar", [0]⟩ else none,
           fun o => if o = 0 then some ⟨none, "Deadpond", "Dive Wilson", none, none, some 1⟩ else none⟩
          [.hero 0] ⟨["team", "hero"], [], [], 1, 1⟩).2.heroes :=
  claimC3_single_commit_resolves_team_fk _ _ 0 1
    ⟨none, "Deadpond", "Dive Wilson", none, none, some 1⟩
    ⟨none, "Z-Force", "Sister Margaret’s Bar", [0]⟩ rfl rfl rfl rfl rfl
